import Mathlib

/-
Shallow embedding of the calendar core of persian-date-utils (src/index.ts).

Modelling conventions:
- JavaScript numbers used as integers are modelled by Int.
- The JS remainder operator a % b truncates toward zero (the result has the
  sign of the dividend); it is modelled by Int.tmod.  Math.floor(a / b) on an
  integer quotient is modelled by Int.fdiv (floor division).
- JS strings are sequences of UTF-16 code units; convertToLatinDigits is
  modelled on List Nat of code units (charCodeAt / fromCharCode arithmetic).
- A JS Date value is modelled by its civil day number (days since the
  Gregorian epoch 1970-01-01, proleptic Gregorian calendar, which is the
  calendar JS Date uses); daysFromCivil / civilFromDays translate between a
  day number and the (getFullYear, getMonth + 1, getDate) triple.  Timestamps
  handled in milliseconds are modelled in milliseconds where the code divides
  by 86400000 itself (getShamsiWeekNumber).  The model assumes a UTC host
  clock, so local-time and UTC constructions coincide.
-/

/-- Model of one UTF-16 code unit under the digit-transliteration arrow
function: Persian digits U+06F0 (1776) to U+06F9 (1785) are shifted down by
1728, everything else is untouched. -/
def toLatinCodeUnit (c : Nat) : Nat :=
  if 1776 ≤ c ∧ c ≤ 1785 then c - 1728 else c

/-- convertToLatinDigits from src/index.ts, on UTF-16 code units: replace
every character matching the regex class for the Persian digits by
String.fromCharCode(match.charCodeAt(0) - 1728). -/
def convertToLatinDigits (s : List Nat) : List Nat :=
  s.map toLatinCodeUnit

/-- isShamsiLeapYear from src/index.ts:
year % 33 === 0 || [4, 8, 12, 16, 20, 24, 28].includes(year % 33),
with % the JS truncated remainder. -/
def isShamsiLeapYear (year : Int) : Bool :=
  year.tmod 33 == 0 || [4, 8, 12, 16, 20, 24, 28].contains (year.tmod 33)

/-- The regular-year month table of src/index.ts (Esfand given 30 days). -/
def regularYearDaysInMonths : List Int :=
  [31, 31, 31, 30, 31, 30, 31, 31, 30, 31, 30, 30]

/-- The leap-year month table of src/index.ts (Esfand given 29 days). -/
def leapYearDaysInMonths : List Int :=
  [31, 31, 31, 30, 31, 30, 31, 31, 30, 31, 30, 29]

/-- getShamsiMonthDays from src/index.ts: null for month outside [1, 12],
otherwise the (month - 1)-indexed entry of the table selected by
isShamsiLeapYear. -/
def getShamsiMonthDays (month year : Int) : Option Int :=
  if month < 1 ∨ 12 < month then none
  else
    some ((if isShamsiLeapYear year then leapYearDaysInMonths
           else regularYearDaysInMonths).getD (month - 1).toNat 0)

/-- getShamsiYearDays from src/index.ts: 366 for a leap year, 365 otherwise. -/
def getShamsiYearDays (year : Int) : Int :=
  if isShamsiLeapYear year then 366 else 365

/-- Sum of getShamsiMonthDays over the twelve months, the quantity claimed by
the month-length-sum property. -/
def shamsiMonthDaysSum (year : Int) : Int :=
  ((List.range 12).map fun i => (getShamsiMonthDays ((i : Int) + 1) year).getD 0).sum

/-- Day number (days since 1970-01-01) of a proleptic Gregorian civil date,
the day-count a JS Date built from (y, m - 1, d) carries. -/
def daysFromCivil (y m d : Int) : Int :=
  let ys := y - (if m ≤ 2 then 1 else 0)
  let era := ys.fdiv 400
  let yoe := ys - era * 400
  let mp := (m + 9) % 12
  let doy := (153 * mp + 2).fdiv 5 + d - 1
  let doe := yoe * 365 + yoe.fdiv 4 - yoe.fdiv 100 + doy
  era * 146097 + doe - 719468

/-- Proleptic Gregorian civil date (getFullYear, getMonth + 1, getDate) of a
day number. -/
def civilFromDays (z0 : Int) : Int × Int × Int :=
  let z := z0 + 719468
  let era := z.fdiv 146097
  let doe := z - era * 146097
  let yoe := (doe - doe.fdiv 1460 + doe.fdiv 36524 - doe.fdiv 146096).fdiv 365
  let y := yoe + era * 400
  let doy := doe - (365 * yoe + yoe.fdiv 4 - yoe.fdiv 100)
  let mp := (5 * doy + 2).fdiv 153
  let d := doy - (153 * mp + 2).fdiv 5 + 1
  let m := mp + (if mp < 10 then 3 else -9)
  (y + (if m ≤ 2 then 1 else 0), m, d)

/-- Day number of new Date(621, 2, 21), the epoch anchor Gregorian
621-03-21 used by both numeric converters. -/
def shamsiEpochDays : Int := daysFromCivil 621 3 21

/-- The totalDays computation of convertShamsiToGregorian in src/index.ts:
the for-loop accumulates the table entries of the months before the given
month, day - 1 is added, and the result is added to
(year - 1) * 365 + Math.floor((year - 1) / 33). -/
def convertShamsiToGregorianTotalDays (year month day : Int) : Int :=
  let monthsInYear := if isShamsiLeapYear year then leapYearDaysInMonths
                      else regularYearDaysInMonths
  let daysInPersianYear := (monthsInYear.take (month - 1).toNat).foldl (· + ·) 0 + (day - 1)
  (year - 1) * 365 + (year - 1).fdiv 33 + daysInPersianYear

/-- convertShamsiToGregorian from src/index.ts, returning the civil triple
read off the Date built from the anchor plus totalDays days. -/
def convertShamsiToGregorian (year month day : Int) : Int × Int × Int :=
  civilFromDays (shamsiEpochDays + convertShamsiToGregorianTotalDays year month day)

/-- The legacy converter convertToGregorianDate from src/index.ts, on the
already-split (year, month, day) triple: leap rule year % 4 === 3, anchor
March 21 of the Gregorian year with the same number as the Persian year, and
totalDays includes day (not day - 1). -/
def convertToGregorianDate (year month day : Int) : Int × Int × Int :=
  let isLeapYear := year.tmod 4 == 3
  let daysInPersianMonth := if isLeapYear then leapYearDaysInMonths
                            else regularYearDaysInMonths
  let totalDays := (daysInPersianMonth.take (month - 1).toNat).foldl (· + ·) 0 + day
  civilFromDays (daysFromCivil year 3 21 + totalDays)

/-- The month walk of convertGregorianToShamsi in src/index.ts: starting from
persianMonth = 1 and persianDay = 0, scan the table; on the first month whose
length exceeds the remainder, answer (index + 1, remainder + 1), otherwise
subtract the length; if the loop exhausts the table the initial pair stands. -/
def walkShamsiMonths : List Int → Int → Int → Int × Int
  | [], _, _ => (1, 0)
  | mdays :: rest, i, r =>
      if r < mdays then (i + 1, r + 1) else walkShamsiMonths rest (i + 1) (r - mdays)

/-- convertGregorianToShamsi from src/index.ts.  The year approximation
Math.floor(daysDifference / 365.2422) is modelled as the exact rational floor
fdiv (daysDifference * 10000) 3652422; the IEEE double division the code
performs agrees with the exact rational floor except when the true quotient
lies within a few ulps of an integer, which the concrete inputs used in the
theorems below avoid by a wide margin. -/
def convertGregorianToShamsi (gy gm gd : Int) : Int × Int × Int :=
  let daysDifference := daysFromCivil gy gm gd - shamsiEpochDays
  let persianYear := 621 + (daysDifference * 10000).fdiv 3652422
  let daysInPersianYear := daysDifference.tmod 365
  let monthsInYear := if isShamsiLeapYear persianYear then leapYearDaysInMonths
                      else regularYearDaysInMonths
  let md := walkShamsiMonths monthsInYear 0 daysInPersianYear
  (persianYear, md.1, md.2)

/-- addShamsiDays from src/index.ts: convert to Gregorian, advance the Date
by daysToAdd civil days, convert back. -/
def addShamsiDays (year month day daysToAdd : Int) : Int × Int × Int :=
  let g := convertShamsiToGregorian year month day
  let shifted := civilFromDays (daysFromCivil g.1 g.2.1 g.2.2 + daysToAdd)
  convertGregorianToShamsi shifted.1 shifted.2.1 shifted.2.2

/-- subtractShamsiDays from src/index.ts: addShamsiDays with the negated
count. -/
def subtractShamsiDays (year month day daysToSubtract : Int) : Int × Int × Int :=
  addShamsiDays year month day (-daysToSubtract)

/-- Milliseconds per day, the divisor 1000 * 60 * 60 * 24 of src/index.ts. -/
def msPerDay : Int := 86400000

/-- getShamsiWeekNumber from src/index.ts, on millisecond timestamps:
Math.floor of the millisecond difference over a day, then Math.ceil of that
over 7; for an integer n, Math.ceil(n / 7) equals the negated floor division
of -n by 7. -/
def getShamsiWeekNumber (dateMs startMs : Int) : Int :=
  let daysSinceStartOfYear := (dateMs - startMs).fdiv msPerDay
  let weekNumber := -((-daysSinceStartOfYear).fdiv 7)
  weekNumber


/-- The leap set of the 33-year cycle, as the spec writes it. -/
def shamsiLeapSet : List Int := [4, 8, 12, 16, 20, 24, 28]

/-- Zero-based day-of-year of a Persian date as described by the spec: the
sum of the month-length-table entries for all months strictly before the
given month (table chosen by the leap predicate), plus day - 1. -/
def specShamsiDayOfYear (year month day : Int) : Int :=
  ((List.range (month - 1).toNat).map fun i =>
    (if isShamsiLeapYear year then leapYearDaysInMonths
     else regularYearDaysInMonths).getD i 0).sum + (day - 1)

/-- Total elapsed day count since the epoch anchor as described by the spec:
(year - 1) * 365 + floor((year - 1) / 33) + day-of-year. -/
def specShamsiTotalDays (year month day : Int) : Int :=
  (year - 1) * 365 + (year - 1).fdiv 33 + specShamsiDayOfYear year month day

/-- Helper: on nonnegative arguments the JS truncated remainder agrees with
the mathematical (Euclidean) remainder. -/
theorem tmod_thirtythree_eq_emod {year : Int} (h : 0 ≤ year) :
    year.tmod 33 = year % 33 :=
  Int.tmod_eq_emod h (by norm_num)

/-- C1 counterexample: at year = -29 the mathematical remainder -29 mod 33 is
4, which lies in the leap set, yet isShamsiLeapYear returns false (the JS
remainder -29 % 33 = -29 is what the code tests), so the claimed equivalence
fails for negative years. -/
theorem isShamsiLeapYear_mod_claim_cex :
    ¬ (isShamsiLeapYear (-29) = true ↔
        ((-29 : Int) % 33 = 0 ∨ (-29 : Int) % 33 ∈ shamsiLeapSet)) := by
  decide

/-- C1 (amended): for every nonnegative integer year, isShamsiLeapYear year
returns true if and only if year mod 33 is 0 or lies in
{4, 8, 12, 16, 20, 24, 28}; the function is total on Int, so any integer is
accepted without error. -/
theorem isShamsiLeapYear_mod_spec (year : Int) (h : 0 ≤ year) :
    isShamsiLeapYear year = true ↔
      (year % 33 = 0 ∨ year % 33 ∈ shamsiLeapSet) := by
  unfold isShamsiLeapYear shamsiLeapSet
  rw [tmod_thirtythree_eq_emod h]
  simp [List.contains, List.elem_iff]

/-- Witness for C1 at year = 4. -/
theorem isShamsiLeapYear_mod_spec_witness :
    isShamsiLeapYear 4 = true ↔
      ((4 : Int) % 33 = 0 ∨ (4 : Int) % 33 ∈ shamsiLeapSet) :=
  isShamsiLeapYear_mod_spec 4 (by decide)

/-- C3 counterexample: isShamsiLeapYear 1403 does not return true
(1403 = 42 * 33 + 17, and 17 is neither 0 nor in the leap set). -/
theorem isShamsiLeapYear_1403_cex : ¬ (isShamsiLeapYear 1403 = true) := by
  decide

/-- C3 (amended): isShamsiLeapYear 1403 returns false under the 33-year-cycle
rule of the code. -/
theorem isShamsiLeapYear_1403_false : isShamsiLeapYear 1403 = false := by
  decide

/-- C8 counterexample: the 33-year periodicity fails across zero, where the
JS truncated remainder changes sign: isShamsiLeapYear (-29) is false but
isShamsiLeapYear (-29 + 33) = isShamsiLeapYear 4 is true. -/
theorem isShamsiLeapYear_periodicity_cex :
    ¬ (isShamsiLeapYear (-29) = isShamsiLeapYear (-29 + 33)) := by
  decide

/-- C8 (amended): for every nonnegative integer year the leap predicate is
33-periodic: isShamsiLeapYear (year + 33) = isShamsiLeapYear year. -/
theorem isShamsiLeapYear_periodic (year : Int) (h : 0 ≤ year) :
    isShamsiLeapYear (year + 33) = isShamsiLeapYear year := by
  unfold isShamsiLeapYear
  rw [tmod_thirtythree_eq_emod h, tmod_thirtythree_eq_emod (by omega),
    show (year + 33) % 33 = year % 33 by omega]

/-- Witness for C8 at year = 0. -/
theorem isShamsiLeapYear_periodic_witness :
    isShamsiLeapYear (0 + 33) = isShamsiLeapYear 0 :=
  isShamsiLeapYear_periodic 0 (by decide)

/-- C2 (code bug): for the common year 1 the twelve month lengths returned by
getShamsiMonthDays sum to 367, not the 365 the spec asserts and the library
itself reports through getShamsiYearDays; for the leap year 4 the sum is 366
as claimed.  The common-year table [31,31,31,30,31,30,31,31,30,31,30,30] is
not a Persian month-length table. -/
theorem shamsiMonthDaysSum_contradicts_yearDays :
    shamsiMonthDaysSum 1 = 367 ∧ isShamsiLeapYear 1 = false ∧
      getShamsiYearDays 1 = 365 ∧
      shamsiMonthDaysSum 4 = 366 ∧ isShamsiLeapYear 4 = true := by
  decide

/-- C6: getShamsiMonthDays returns the null sentinel exactly for months
outside [1, 12]; in range it returns the (month - 1)-indexed entry of the
table selected by isShamsiLeapYear; for month 12 that entry is 29 in a leap
year and 30 in a common year. -/
theorem getShamsiMonthDays_spec (month year : Int) :
    ((month < 1 ∨ 12 < month) → getShamsiMonthDays month year = none) ∧
    (1 ≤ month → month ≤ 12 → getShamsiMonthDays month year =
      some ((if isShamsiLeapYear year then leapYearDaysInMonths
             else regularYearDaysInMonths).getD (month - 1).toNat 0)) ∧
    getShamsiMonthDays 12 year =
      some (if isShamsiLeapYear year then 29 else 30) := by
  refine ⟨fun h => ?_, fun h1 h2 => ?_, ?_⟩
  · simp only [getShamsiMonthDays, if_pos h]
  · simp only [getShamsiMonthDays, if_neg (by omega : ¬ (month < 1 ∨ 12 < month))]
  · cases hL : isShamsiLeapYear year <;>
      simp [getShamsiMonthDays, hL, leapYearDaysInMonths, regularYearDaysInMonths]

/-- Witness for C6 at month = 5, year = 1. -/
theorem getShamsiMonthDays_spec_witness :
    getShamsiMonthDays 5 1 =
      some ((if isShamsiLeapYear 1 then leapYearDaysInMonths
             else regularYearDaysInMonths).getD ((5 : Int) - 1).toNat 0) :=
  (getShamsiMonthDays_spec 5 1).2.1 (by decide) (by decide)

/-- Helper: one application of the transliteration arrow function leaves no
Persian digit behind, so a second application changes nothing. -/
theorem toLatinCodeUnit_idem (c : Nat) :
    toLatinCodeUnit (toLatinCodeUnit c) = toLatinCodeUnit c := by
  by_cases h : 1776 ≤ c ∧ c ≤ 1785
  · simp only [toLatinCodeUnit, if_pos h]
    rw [if_neg (by omega)]
  · simp only [toLatinCodeUnit, if_neg h]

/-- C9: convertToLatinDigits maps each Persian-script digit code unit
(1776 to 1785) down by 1728 onto the corresponding ASCII digit, leaves every
other code unit unchanged, and is idempotent, since no Persian digit remains
after one pass. -/
theorem convertToLatinDigits_spec :
    (∀ c : Nat, 1776 ≤ c → c ≤ 1785 → convertToLatinDigits [c] = [c - 1728]) ∧
    (∀ c : Nat, ¬ (1776 ≤ c ∧ c ≤ 1785) → convertToLatinDigits [c] = [c]) ∧
    ∀ s : List Nat,
      convertToLatinDigits (convertToLatinDigits s) = convertToLatinDigits s := by
  refine ⟨fun c h1 h2 => ?_, fun c h => ?_, fun s => ?_⟩
  · simp [convertToLatinDigits, toLatinCodeUnit, h1, h2]
  · simp [convertToLatinDigits, toLatinCodeUnit, if_neg h]
  · simp only [convertToLatinDigits, List.map_map]
    exact List.map_congr_left fun c _ => toLatinCodeUnit_idem c

/-- Witness for C9 at the Persian digit one (code unit 1777). -/
theorem convertToLatinDigits_spec_witness :
    convertToLatinDigits [1777] = [1777 - 1728] :=
  convertToLatinDigits_spec.1 1777 (by decide) (by decide)

/-- C7 counterexample: with the date 1970-01-01 and a year-start eight days
later, the millisecond difference is -8 days and the code returns
ceil(-8 / 7) = -1, a negative week number, refuting the claim that the
result is always at least 0. -/
theorem getShamsiWeekNumber_negative_cex :
    getShamsiWeekNumber 0 691200000 = -1 ∧
      ¬ (0 ≤ getShamsiWeekNumber 0 691200000) := by
  decide

/-- C7 (amended): getShamsiWeekNumber returns the ceiling of the whole-day
difference over 7 (characterised by the two inequalities bracketing a
ceiling), and the result is nonnegative whenever the date does not precede
the year-start date. -/
theorem getShamsiWeekNumber_spec (dateMs startMs : Int) :
    (7 * (getShamsiWeekNumber dateMs startMs - 1) <
        (dateMs - startMs).fdiv msPerDay ∧
      (dateMs - startMs).fdiv msPerDay ≤ 7 * getShamsiWeekNumber dateMs startMs) ∧
    (startMs ≤ dateMs → 0 ≤ getShamsiWeekNumber dateMs startMs) := by
  have hw : getShamsiWeekNumber dateMs startMs =
      -((-((dateMs - startMs).fdiv msPerDay)).fdiv 7) := rfl
  generalize hn : (dateMs - startMs).fdiv msPerDay = n at hw ⊢
  rw [hw, Int.fdiv_eq_ediv _ (by norm_num : (0 : Int) ≤ 7)]
  rw [Int.fdiv_eq_ediv _ (by decide : (0 : Int) ≤ msPerDay)] at hn
  simp only [msPerDay] at hn
  omega

/-- Witness for C7 at one day past the year start. -/
theorem getShamsiWeekNumber_spec_witness :
    0 ≤ getShamsiWeekNumber 86400000 0 :=
  (getShamsiWeekNumber_spec 86400000 0).2 (by decide)

/-- Helper: for either month table and any prefix length up to 12, the
for-loop accumulation (foldl over a take) equals the sum of the indexed
entries over the months strictly before the cut. -/
theorem foldl_take_eq_range_sum :
    ∀ L ∈ [regularYearDaysInMonths, leapYearDaysInMonths], ∀ k, k < 13 →
      ((L.take k).foldl (· + ·) 0 : Int) =
        ((List.range k).map fun i => L.getD i 0).sum := by
  decide

/-- C4: for month in [1, 12], the totalDays of convertShamsiToGregorian is
exactly the day count the spec describes, namely the sum of the
month-length-table entries of the months strictly before the given month
plus day - 1, added to (year - 1) * 365 + floor((year - 1) / 33), and the
returned Gregorian date is the epoch anchor Gregorian 621-03-21 advanced by
that day count. -/
theorem convertShamsiToGregorian_follows_spec (year month day : Int)
    (h1 : 1 ≤ month) (h2 : month ≤ 12) :
    convertShamsiToGregorianTotalDays year month day =
      specShamsiTotalDays year month day ∧
    convertShamsiToGregorian year month day =
      civilFromDays (daysFromCivil 621 3 21 + specShamsiTotalDays year month day) := by
  have hsum : ((if isShamsiLeapYear year then leapYearDaysInMonths
        else regularYearDaysInMonths).take (month - 1).toNat).foldl (· + ·) 0 =
      ((List.range (month - 1).toNat).map fun i =>
        (if isShamsiLeapYear year then leapYearDaysInMonths
         else regularYearDaysInMonths).getD i 0).sum := by
    cases isShamsiLeapYear year <;>
      exact foldl_take_eq_range_sum _ (by simp) ((month - 1).toNat) (by omega)
  have hmain : convertShamsiToGregorianTotalDays year month day =
      specShamsiTotalDays year month day := by
    unfold convertShamsiToGregorianTotalDays specShamsiTotalDays specShamsiDayOfYear
    simp only [hsum]
  exact ⟨hmain, by rw [convertShamsiToGregorian, hmain, shamsiEpochDays]⟩

/-- Witness for C4 at the Persian date 1403-01-01. -/
theorem convertShamsiToGregorian_follows_spec_witness :
    convertShamsiToGregorianTotalDays 1403 1 1 = specShamsiTotalDays 1403 1 1 ∧
    convertShamsiToGregorian 1403 1 1 =
      civilFromDays (daysFromCivil 621 3 21 + specShamsiTotalDays 1403 1 1) :=
  convertShamsiToGregorian_follows_spec 1403 1 1 (by decide) (by decide)

/-- C5 (code bug): subtraction is indeed addition of the negated count, but
the add-then-subtract round trip fails even for n = 0 at the valid Persian
date 1403-01-01: addShamsiDays 1403 1 1 0 returns (2022, 2, 12) because the
year formula 621 + floor(days / 365.2422) of convertGregorianToShamsi does
not invert the day count of convertShamsiToGregorian, and a second
application lands on (2640, 4, 11), not back on (1403, 1, 1). -/
theorem addShamsiDays_roundtrip_fails :
    subtractShamsiDays 1403 1 1 0 = addShamsiDays 1403 1 1 (-0) ∧
    addShamsiDays 1403 1 1 0 = (2022, 2, 12) ∧
    (addShamsiDays (addShamsiDays 1403 1 1 0).1 (addShamsiDays 1403 1 1 0).2.1
        (addShamsiDays 1403 1 1 0).2.2 (-0)) = (2640, 4, 11) ∧
    (addShamsiDays (addShamsiDays 1403 1 1 0).1 (addShamsiDays 1403 1 1 0).2.1
        (addShamsiDays 1403 1 1 0).2.2 (-0)) ≠ (1403, 1, 1) := by
  decide

/-- C10: the legacy string-based converter and the numeric converter disagree
as calendar dates: on the valid Persian date 1403-01-01 the legacy function
returns Gregorian 1403-03-22 (it anchors at March 21 of the input year
itself) while the numeric converter returns Gregorian 2022-05-27 (epoch
621-03-21 plus the 33-year-cycle day count). -/
theorem convertToGregorianDate_differs :
    convertToGregorianDate 1403 1 1 = (1403, 3, 22) ∧
    convertShamsiToGregorian 1403 1 1 = (2022, 5, 27) ∧
    convertToGregorianDate 1403 1 1 ≠ convertShamsiToGregorian 1403 1 1 := by
  decide
